import Mathlib

set_option maxRecDepth 100000

/-!
Verification development for a TOTP two-factor-authentication service.

The service layer (provisioning, verification, status, disable) is embedded
from `src/main.py`.  The TOTP engine and secret codec live in the external
`pyotp` dependency, which is not part of the repository sources; they are
modelled from the specification (RFC 6238 / RFC 4226 as spelled out in
spec.md §4), executably, so that concrete codes can be evaluated.
-/

namespace TwoFA

/-! ### TOTP engine (modelled from the spec)

Modelled from the spec: the repository delegates code generation and
verification to the external `pyotp` library, whose source is not under
`src/`.  Spec §4.2 specifies the algorithm verbatim (HMAC-SHA1 over the
8-byte big-endian counter, dynamic truncation, 6-digit decimal code),
so the engine below implements exactly that. -/

/-- 32-bit left rotation (inputs are 32-bit words represented as `Nat`). -/
def rotl (n x : Nat) : Nat :=
  ((x <<< n) ||| (x >>> (32 - n))) % 4294967296

/-- SHA-1 round constants. -/
def sha1K (i : Nat) : Nat :=
  if i < 20 then 0x5A827999
  else if i < 40 then 0x6ED9EBA1
  else if i < 60 then 0x8F1BBCDC
  else 0xCA62C1D6

/-- SHA-1 round functions (choose / parity / majority / parity). -/
def sha1F (i b c d : Nat) : Nat :=
  if i < 20 then (b &&& c) ||| ((b ^^^ 4294967295) &&& d)
  else if i < 40 then b ^^^ c ^^^ d
  else if i < 60 then (b &&& c) ||| (b &&& d) ||| (c &&& d)
  else b ^^^ c ^^^ d

/-- Group a byte list into big-endian 32-bit words. -/
def wordsOf : List Nat → List Nat
  | a :: b :: c :: d :: rest => (a * 16777216 + b * 65536 + c * 256 + d) :: wordsOf rest
  | _ => []

/-- Merkle–Damgård padding: `0x80`, zeros to 56 mod 64, 8-byte bit length. -/
def sha1Pad (msg : List Nat) : List Nat :=
  let ml := 8 * msg.length
  let zeros := (119 - msg.length % 64) % 64
  msg ++ 128 :: (List.replicate zeros 0 ++ (List.range 8).map fun i => (ml >>> (8 * (7 - i))) % 256)

/-- Extend the 16 chunk words to the 80 schedule words (the fold keeps the
schedule reversed so each new word reads `w[i-3]`, `w[i-8]`, `w[i-14]`,
`w[i-16]` from the front). -/
def extendWords (ws : List Nat) : List Nat :=
  (List.foldl
    (fun w _ =>
      rotl 1 ((w.getD 2 0) ^^^ (w.getD 7 0) ^^^ (w.getD 13 0) ^^^ (w.getD 15 0)) :: w)
    ws.reverse (List.range 64)).reverse

/-- Run the 80 SHA-1 rounds, consuming the word schedule. -/
def sha1Rounds : Nat → List Nat → Nat × Nat × Nat × Nat × Nat → Nat × Nat × Nat × Nat × Nat
  | _, [], st => st
  | i, wi :: ws, (a, b, c, d, e) =>
    sha1Rounds (i + 1) ws
      ((rotl 5 a + sha1F i b c d + e + sha1K i + wi) % 4294967296, a, rotl 30 b, c, d)

/-- Compress one 64-byte chunk into the running state. -/
def sha1Chunk (h : Nat × Nat × Nat × Nat × Nat) (chunk : List Nat) :
    Nat × Nat × Nat × Nat × Nat :=
  let (a, b, c, d, e) := sha1Rounds 0 (extendWords (wordsOf chunk)) h
  let (h0, h1, h2, h3, h4) := h
  ((h0 + a) % 4294967296, (h1 + b) % 4294967296, (h2 + c) % 4294967296,
    (h3 + d) % 4294967296, (h4 + e) % 4294967296)

/-- Split a byte list into 64-byte chunks (fuel-driven, structurally recursive). -/
def chunksAux : Nat → List Nat → List (List Nat)
  | 0, _ => []
  | _ + 1, [] => []
  | n + 1, x :: xs => (x :: xs).take 64 :: chunksAux n ((x :: xs).drop 64)

/-- Big-endian bytes of a 32-bit word. -/
def wordBytes (h : Nat) : List Nat :=
  [(h >>> 24) % 256, (h >>> 16) % 256, (h >>> 8) % 256, h % 256]

/-- SHA-1 of a byte list (bytes are `Nat`s below 256); returns the 20 digest bytes. -/
def sha1 (msg : List Nat) : List Nat :=
  let padded := sha1Pad msg
  let (h0, h1, h2, h3, h4) :=
    List.foldl sha1Chunk (0x67452301, 0xEFCDAB89, 0x98BADCFE, 0x10325476, 0xC3D2E1F0)
      (chunksAux padded.length padded)
  ([h0, h1, h2, h3, h4].map wordBytes).flatten

/-- HMAC-SHA1 (RFC 2104) over byte lists. -/
def hmacSha1 (key msg : List Nat) : List Nat :=
  let k0 := if key.length > 64 then sha1 key else key
  let k := k0 ++ List.replicate (64 - k0.length) 0
  sha1 ((k.map (fun b => b ^^^ 0x5C)) ++ sha1 ((k.map (fun b => b ^^^ 0x36)) ++ msg))

/-- Value of one RFC 4648 base32 character (case-insensitive, as `b32decode`
with `casefold` accepts). -/
def b32Val (c : Char) : Option Nat :=
  let n := c.toNat
  if 65 ≤ n ∧ n ≤ 90 then some (n - 65)
  else if 97 ≤ n ∧ n ≤ 122 then some (n - 97)
  else if 50 ≤ n ∧ n ≤ 55 then some (n - 24)
  else none

/-- Repack a stream of 5-bit values into bytes, dropping trailing partial bits. -/
def packBits : List Nat → Nat → Nat → List Nat
  | [], _, _ => []
  | v :: vs, acc, bits =>
    let acc2 := acc * 32 + v
    let bits2 := bits + 5
    if 8 ≤ bits2 then (acc2 >>> (bits2 - 8)) :: packBits vs (acc2 % 2 ^ (bits2 - 8)) (bits2 - 8)
    else packBits vs acc2 bits2

/-- Decode an unpadded base32 string to its key bytes; `none` when a character
is outside the alphabet. -/
def base32Decode (s : String) : Option (List Nat) :=
  (s.data.mapM b32Val).map (fun vs => packBits vs 0 0)

/-- Left-zero-padded 6-digit decimal rendering of a code value. -/
def codeString (n : Nat) : String :=
  String.mk ((List.range 6).map fun i => Char.ofNat (48 + (n / 10 ^ (5 - i)) % 10))

/-- 8-byte big-endian encoding of a counter (two's complement for negatives,
matching `struct.pack` of a signed 64-bit value). -/
def counterBytes (k : Int) : List Nat :=
  let n := (k.emod 18446744073709551616).toNat
  (List.range 8).map fun i => (n >>> (8 * (7 - i))) % 256

/-- `ComputeCode` on decoded key bytes: HMAC-SHA1, dynamic truncation,
6 decimal digits (spec §4.2). -/
def computeCodeKey (key : List Nat) (k : Int) : String :=
  let h := hmacSha1 key (counterBytes k)
  let o := (h.getD 19 0) % 16
  let bin := ((h.getD o 0) % 128) * 16777216 + (h.getD (o + 1) 0) * 65536 +
    (h.getD (o + 2) 0) * 256 + h.getD (o + 3) 0
  codeString (bin % 1000000)

/-- `ComputeCode` on the base32 secret; `none` when the secret does not decode. -/
def computeCode (secret : String) (k : Int) : Option String :=
  (base32Decode secret).map (fun key => computeCodeKey key k)

/-- `CounterForTime` with the default 30-second step (spec §4.2). -/
def counterForTime (now : Nat) : Int :=
  Int.ofNat (now / 30)

/-- The candidate counters accepted at window 1: current counter ± 1. -/
def windowCounters (c : Int) : List Int :=
  [c - 1, c, c + 1]

/-- `Verify(secret, candidate, now)` with `window=1`: true when the candidate
equals the code of some counter in the window; false when the secret does not
decode (the service catches the decoding error and treats it as a non-match). -/
def totpVerify (secret candidate : String) (now : Nat) : Bool :=
  match base32Decode secret with
  | none => false
  | some key => (windowCounters (counterForTime now)).any fun k => candidate == computeCodeKey key k

/-! ### Secret codec helpers (modelled from the spec)

Modelled from the spec: `BuildProvisioningURI` (spec §4.1) lives in `pyotp`,
outside `src/`; percent-encoding follows URI rules with the unreserved set
kept verbatim. -/

/-- Uppercase hexadecimal digit. -/
def hexDigit (n : Nat) : Char :=
  Char.ofNat (if n < 10 then 48 + n else 55 + n)

/-- UTF-8 bytes of a code point. -/
def utf8Bytes (n : Nat) : List Nat :=
  if n < 128 then [n]
  else if n < 2048 then [192 + n / 64, 128 + n % 64]
  else if n < 65536 then [224 + n / 4096, 128 + n / 64 % 64, 128 + n % 64]
  else [240 + n / 262144, 128 + n / 4096 % 64, 128 + n / 64 % 64, 128 + n % 64]

/-- Percent-encode a display string per URI rules (unreserved characters pass). -/
def percentEncode (s : String) : String :=
  String.mk (s.data.flatMap fun c =>
    if c.isAlphanum ∨ c = '-' ∨ c = '.' ∨ c = '_' ∨ c = '~' then [c]
    else (utf8Bytes c.toNat).flatMap fun b => ['%', hexDigit (b / 16), hexDigit (b % 16)])

/-- `BuildProvisioningURI(secret, accountLabel, issuer)` (spec §4.1): the
`otpauth://` URI handed to authenticator apps; the secret is already base32
and passes unencoded. -/
def provisioningUri (secret label issuer : String) : String :=
  "otpauth://totp/" ++ percentEncode issuer ++ ":" ++ percentEncode label ++
    "?secret=" ++ secret ++ "&issuer=" ++ percentEncode issuer

/-! ### Service layer (embedded from `src/main.py`)

The MongoDB collection `twofasecret` is embedded as a map from `user_id` to
the stored document.  Documents are schemaless in MongoDB; the embedding
fixes the field set this service reads and writes, with `secret` optional
because the code guards on `existing.get("secret")`. -/

/-- A stored `twofasecret` document. -/
structure Credential where
  user_id : String
  secret : Option String
  issuer : String
  label : String
  enabled : Bool
deriving DecidableEq, Repr

/-- The `twofasecret` collection, keyed by `user_id`. -/
def Store : Type :=
  String → Option Credential

/-- The empty collection. -/
def emptyStore : Store :=
  fun _ => none

/-- `update_one(..., upsert)` / `$set` on the single document keyed by `k`. -/
def updateStore (s : Store) (k : String) (c : Credential) : Store :=
  fun v => if v = k then some c else s v

/-- Body of `POST /2fa/setup` (the pydantic default for `issuer` is applied
before the handler runs, so `issuer` is a plain field here). -/
structure SetupRequest where
  user_id : String
  issuer : String
  label : Option String
deriving DecidableEq, Repr

/-- `req.label or req.user_id`: Python truthiness, so an absent *or empty*
label falls back to the user id. -/
def resolveLabel (req : SetupRequest) : String :=
  match req.label with
  | some l => if l = "" then req.user_id else l
  | none => req.user_id

/-- `existing.get("secret")` under Python truthiness: the stored secret when
present and nonempty, otherwise `none`. -/
def truthySecret (c : Credential) : Option String :=
  match c.secret with
  | some s => if s = "" then none else some s
  | none => none

/-- Response of `POST /2fa/setup`. -/
structure SetupResponse where
  user_id : String
  issuer : String
  label : String
  secret : String
  otpauth_url : String
  qr_data_url : String
  enabled : Bool
deriving DecidableEq, Repr

/-- The `if existing and existing.get("secret")` branch of `setup_2fa`: the
secret/enabled pair to use — the stored ones when an existing document holds
a truthy secret, otherwise a fresh secret with `enabled = False`. -/
def setupChoice (store : Store) (req : SetupRequest) (freshSecret : String) : String × Bool :=
  match store req.user_id with
  | some existing =>
    match truthySecret existing with
    | some s => (s, existing.enabled)
    | none => (freshSecret, false)
  | none => (freshSecret, false)

/-- `setup_2fa` from `src/main.py`.  `freshSecret` stands for the
`pyotp.random_base32()` call and `qrRender` for `_generate_qr_data_url`
(a pure text-to-image function, out of algorithmic scope per spec §1).
The best-effort audit insert into the separate `twofasecret_audit`
collection (its failures are swallowed by `try/except`) touches neither the
`twofasecret` collection nor the response and is not part of the state. -/
def setup2fa (store : Store) (req : SetupRequest) (freshSecret : String)
    (qrRender : String → String) : SetupResponse × Store :=
  let label := resolveLabel req
  let secret := (setupChoice store req freshSecret).1
  let enabled := (setupChoice store req freshSecret).2
  let otpauth_url := provisioningUri secret label req.issuer
  ({ user_id := req.user_id, issuer := req.issuer, label := label, secret := secret,
     otpauth_url := otpauth_url, qr_data_url := qrRender otpauth_url, enabled := enabled },
   updateStore store req.user_id ⟨req.user_id, some secret, req.issuer, label, enabled⟩)

/-- An `HTTPException(status_code, detail)` raised to the caller. -/
structure HTTPException where
  status_code : Nat
  detail : String
deriving DecidableEq, Repr

/-- Response of `POST /2fa/verify`. -/
structure VerifyResponse where
  success : Bool
  verified : Bool
  enabled : Bool
deriving DecidableEq, Repr

/-- `totp.verify(req.code, valid_window=1)` wrapped in the handler's
`try/except`: any exception (including the base32 decode of a missing or
malformed secret) is normalized to `False`. -/
def checkCode (doc : Credential) (code : String) (now : Nat) : Bool :=
  match doc.secret with
  | some s => totpVerify s code now
  | none => false

/-- `verify_2fa` from `src/main.py`: 404 when no document exists; on a match
the document's `enabled` field is set to `True`, otherwise the store is left
untouched. -/
def verify2fa (store : Store) (uid code : String) (now : Nat) :
    Except HTTPException (VerifyResponse × Store) :=
  match store uid with
  | none => Except.error ⟨404, "2FA not set up for this user"⟩
  | some doc =>
    if checkCode doc code now then
      Except.ok (⟨true, true, true⟩, updateStore store uid { doc with enabled := true })
    else
      Except.ok (⟨false, false, doc.enabled⟩, store)

/-- Response of `GET /2fa/status`: the stored document with `_id` and
`secret` projected away, plus `configured`.  `issuer` and `label` are
`Option`s because the not-configured response omits them. -/
structure StatusResponse where
  user_id : String
  issuer : Option String
  label : Option String
  enabled : Bool
  configured : Bool
deriving DecidableEq, Repr

/-- `status_2fa` from `src/main.py`: the lookup projects out `_id` and
`secret`; a missing document yields the fixed not-configured shape. -/
def status2fa (store : Store) (uid : String) : StatusResponse :=
  match store uid with
  | none => ⟨uid, none, none, false, false⟩
  | some doc => ⟨doc.user_id, some doc.issuer, some doc.label, doc.enabled, true⟩

/-- Response of `POST /2fa/disable`. -/
structure DisableResponse where
  success : Bool
  enabled : Bool
deriving DecidableEq, Repr

/-- `disable_2fa` from `src/main.py`: the source runs the `$set` first and
then tests `matched_count`; no document is matched exactly when none exists,
so the embedding branches on the lookup. -/
def disable2fa (store : Store) (uid : String) :
    Except HTTPException (DisableResponse × Store) :=
  match store uid with
  | none => Except.error ⟨404, "2FA not set up for this user"⟩
  | some doc => Except.ok (⟨true, false⟩, updateStore store uid { doc with enabled := false })

/-! ### The operations as a transition system (for the temporal claims) -/

/-- One request against the service. -/
inductive Op where
  | setup (req : SetupRequest) (freshSecret : String)
  | verify (uid code : String) (now : Nat)
  | status (uid : String)
  | disable (uid : String)

/-- The store after handling one request (error responses leave it unchanged). -/
def applyOp (op : Op) (s : Store) : Store :=
  match op with
  | .setup req fresh => (setup2fa s req fresh (fun _ => "")).2
  | .verify uid code now =>
    match verify2fa s uid code now with
    | .ok (_, s2) => s2
    | .error _ => s
  | .status _ => s
  | .disable uid =>
    match disable2fa s uid with
    | .ok (_, s2) => s2
    | .error _ => s

/-- `pyotp.random_base32()` always returns 32 characters; the transition
system only relies on this length (hence nonemptiness) of fresh secrets. -/
def opFreshOk : Op → Prop
  | .setup _ fresh => fresh.length = 32
  | _ => True

/-- Stores reachable from the empty collection through the four endpoints. -/
inductive Reach : Store → Prop where
  | base : Reach emptyStore
  | step (op : Op) (s : Store) : Reach s → opFreshOk op → Reach (applyOp op s)

/-! ### Concrete fixtures used to instantiate the theorems

The secret is the RFC 4226/6238 published test secret
`"12345678901234567890"`, base32-encoded; at `now = 59` the current counter
is 1 and the window codes are `755224`, `287082`, `359152`. -/

/-- Base32 encoding of the RFC test secret. -/
def rfcSecret : String :=
  "GEZDGNBVGY3TQOJQGEZDGNBVGY3TQOJQ"

/-- The decoded RFC test key, the ASCII bytes of `"12345678901234567890"`. -/
def rfcKey : List Nat :=
  [49, 50, 51, 52, 53, 54, 55, 56, 57, 48, 49, 50, 51, 52, 53, 54, 55, 56, 57, 48]

/-- A provisioning request for user `alice`. -/
def demoReq : SetupRequest :=
  ⟨"alice", "Flames 2FA", none⟩

/-- Store holding `alice`, freshly provisioned with the RFC secret. -/
def demoStore : Store :=
  applyOp (Op.setup demoReq rfcSecret) emptyStore

/-- `demoStore` after `alice` verified successfully at `now = 59`. -/
def demoStoreOn : Store :=
  applyOp (Op.verify "alice" "287082" 59) demoStore

/-! ### Supporting lemmas -/

/-- RFC 4226 test-vector conformance of the modelled `ComputeCode`: the
published secret (`"12345678901234567890"` in base32) reproduces the published
codes at counters 0, 1, 2 and 9. -/
theorem computeCode_rfc4226_vectors :
    computeCode rfcSecret 0 = some "755224" ∧
    computeCode rfcSecret 1 = some "287082" ∧
    computeCode rfcSecret 2 = some "359152" ∧
    computeCode rfcSecret 9 = some "520489" := by
  refine ⟨?_, ?_, ?_, ?_⟩ <;> rfl

/-- The RFC secret decodes to the RFC key bytes. -/
theorem base32Decode_rfcSecret : base32Decode rfcSecret = some rfcKey := by
  rfl

/-- Codes are always rendered with exactly 6 characters. -/
theorem codeString_length (n : Nat) : (codeString n).length = 6 := by
  simp [codeString, String.length]

/-- Every character of a rendered code is a decimal digit. -/
theorem codeString_isDigit (n : Nat) : ∀ c ∈ (codeString n).data, c.isDigit = true := by
  intro c hc
  simp [codeString] at hc
  obtain ⟨i, hi, rfl⟩ := hc
  have hd : (n / 10 ^ (5 - i)) % 10 < 10 := Nat.mod_lt _ (by norm_num)
  set d := (n / 10 ^ (5 - i)) % 10 with hdef
  interval_cases d <;> decide

/-- `ComputeCode` outputs have exactly 6 characters. -/
theorem computeCodeKey_length (key : List Nat) (k : Int) :
    (computeCodeKey key k).length = 6 := by
  exact codeString_length _

/-- `ComputeCode` outputs consist of decimal digits. -/
theorem computeCodeKey_isDigit (key : List Nat) (k : Int) :
    ∀ c ∈ (computeCodeKey key k).data, c.isDigit = true := by
  exact codeString_isDigit _

/-- `Verify` accepts a candidate exactly when it equals the code of one of the
counters in the window around the current time. -/
theorem totpVerify_true_iff (secret : String) (key : List Nat) (candidate : String)
    (now : Nat) (h : base32Decode secret = some key) :
    totpVerify secret candidate now = true ↔
      ∃ k ∈ windowCounters (counterForTime now), candidate = computeCodeKey key k := by
  simp [totpVerify, h, List.any_eq_true]

/-- A candidate of the wrong length, or containing a non-digit, never verifies. -/
theorem totpVerify_malformed (secret candidate : String) (now : Nat)
    (h : candidate.length ≠ 6 ∨ ∃ c ∈ candidate.data, c.isDigit = false) :
    totpVerify secret candidate now = false := by
  cases hdec : base32Decode secret with
  | none => simp [totpVerify, hdec]
  | some key =>
    have hnot : ¬ totpVerify secret candidate now = true := by
      rw [totpVerify_true_iff secret key candidate now hdec]
      rintro ⟨k, hk, rfl⟩
      rcases h with h | ⟨c, hc, hdig⟩
      · exact h (computeCodeKey_length key k)
      · have := computeCodeKey_isDigit key k c hc
        rw [this] at hdig
        exact absurd hdig (by decide)
    cases hb : totpVerify secret candidate now with
    | false => rfl
    | true => exact absurd hb hnot

/-- Point lookup after an upsert of the same key. -/
theorem updateStore_lookup (s : Store) (k : String) (c : Credential) :
    updateStore s k c k = some c := by
  simp [updateStore]

/-- An upsert leaves every other key untouched. -/
theorem updateStore_lookup_ne (s : Store) (k : String) (c : Credential) (v : String)
    (h : v ≠ k) : updateStore s k c v = s v := by
  simp [updateStore, h]

/-- Upserting the value already stored is a no-op. -/
theorem updateStore_eq_of_lookup {s : Store} {k : String} {c : Credential}
    (h : s k = some c) : updateStore s k c = s := by
  funext v
  by_cases hv : v = k
  · subst hv; simp [updateStore, h]
  · simp [updateStore, hv]

/-- Reading a truthy secret yields exactly the stored nonempty secret. -/
theorem truthySecret_some {c : Credential} {s0 : String}
    (h : truthySecret c = some s0) : c.secret = some s0 ∧ s0 ≠ "" := by
  cases hs : c.secret with
  | none => simp [truthySecret, hs] at h
  | some s1 =>
    by_cases he : s1 = ""
    · simp [truthySecret, hs, he] at h
    · simp only [truthySecret, hs, if_neg he] at h
      obtain rfl : s1 = s0 := Option.some.inj h
      exact ⟨rfl, he⟩

/-- Conversely, a present nonempty secret is truthy. -/
theorem truthySecret_of (c : Credential) (s0 : String) (hs : c.secret = some s0)
    (hne : s0 ≠ "") : truthySecret c = some s0 := by
  simp [truthySecret, hs, hne]

/-- With an existing truthy secret, setup chooses it and the stored
enabled flag. -/
theorem setupChoice_truthy {store : Store} {req : SetupRequest} {c : Credential}
    {s0 : String} (fresh : String) (h : store req.user_id = some c)
    (ht : truthySecret c = some s0) : setupChoice store req fresh = (s0, c.enabled) := by
  simp [setupChoice, h, ht]

/-- With no document, or no truthy secret, setup chooses a fresh secret and
`enabled = false`. -/
theorem setupChoice_fresh {store : Store} {req : SetupRequest} (fresh : String)
    (h : store req.user_id = none ∨
      ∃ c, store req.user_id = some c ∧ truthySecret c = none) :
    setupChoice store req fresh = (fresh, false) := by
  rcases h with h | ⟨c, hc, ht⟩
  · simp [setupChoice, h]
  · simp [setupChoice, hc, ht]

/-- The store produced by setup is the upsert of the chosen document. -/
theorem setup2fa_snd (store : Store) (req : SetupRequest) (fresh : String)
    (qr : String → String) :
    (setup2fa store req fresh qr).2 =
      updateStore store req.user_id
        ⟨req.user_id, some (setupChoice store req fresh).1, req.issuer,
          resolveLabel req, (setupChoice store req fresh).2⟩ :=
  rfl

/-- The secret returned by setup is the chosen one. -/
theorem setup2fa_secret (store : Store) (req : SetupRequest) (fresh : String)
    (qr : String → String) :
    (setup2fa store req fresh qr).1.secret = (setupChoice store req fresh).1 :=
  rfl

/-- The enabled flag returned by setup is the chosen one. -/
theorem setup2fa_enabled (store : Store) (req : SetupRequest) (fresh : String)
    (qr : String → String) :
    (setup2fa store req fresh qr).1.enabled = (setupChoice store req fresh).2 :=
  rfl

/-- Invariant of the running service: every stored document carries a
nonempty secret (setup always stores one, pyotp fresh secrets have 32
characters, and no other operation touches the secret field). -/
theorem reach_secret_nonempty {s : Store} (hs : Reach s) :
    ∀ u c, s u = some c → ∃ sec, c.secret = some sec ∧ sec ≠ "" := by
  induction hs with
  | base => intro u c h; simp [emptyStore] at h
  | step op s1 hr hok ih =>
    intro u c h
    cases op with
    | setup req fresh =>
      have hlen : fresh.length = 32 := hok
      have hfne : fresh ≠ "" := by
        intro he; rw [he] at hlen; exact absurd hlen (by decide)
      rw [show applyOp (Op.setup req fresh) s1 = (setup2fa s1 req fresh (fun _ => "")).2
          from rfl, setup2fa_snd] at h
      by_cases hu : u = req.user_id
      · subst hu
        rw [updateStore_lookup] at h
        obtain rfl := Option.some.inj h
        refine ⟨(setupChoice s1 req fresh).1, rfl, ?_⟩
        rcases hex : s1 req.user_id with _ | c0
        · rw [setupChoice_fresh fresh (Or.inl hex)]; exact hfne
        · rcases ht : truthySecret c0 with _ | s0
          · rw [setupChoice_fresh fresh (Or.inr ⟨c0, hex, ht⟩)]; exact hfne
          · rw [setupChoice_truthy fresh hex ht]
            exact (truthySecret_some ht).2
      · rw [updateStore_lookup_ne _ _ _ _ hu] at h
        exact ih u c h
    | verify uid code now =>
      rcases hex : s1 uid with _ | doc
      · have heq : applyOp (Op.verify uid code now) s1 = s1 := by
          simp [applyOp, verify2fa, hex]
        rw [heq] at h; exact ih u c h
      · cases hcv : checkCode doc code now with
        | false =>
          have heq : applyOp (Op.verify uid code now) s1 = s1 := by
            simp [applyOp, verify2fa, hex, hcv]
          rw [heq] at h; exact ih u c h
        | true =>
          have heq : applyOp (Op.verify uid code now) s1 =
              updateStore s1 uid { doc with enabled := true } := by
            simp [applyOp, verify2fa, hex, hcv]
          rw [heq] at h
          by_cases hu : u = uid
          · subst hu
            rw [updateStore_lookup] at h
            obtain rfl := Option.some.inj h
            obtain ⟨sec, hsec, hne⟩ := ih u doc hex
            exact ⟨sec, hsec, hne⟩
          · rw [updateStore_lookup_ne _ _ _ _ hu] at h
            exact ih u c h
    | status uid => exact ih u c h
    | disable uid =>
      rcases hex : s1 uid with _ | doc
      · have heq : applyOp (Op.disable uid) s1 = s1 := by
          simp [applyOp, disable2fa, hex]
        rw [heq] at h; exact ih u c h
      · have heq : applyOp (Op.disable uid) s1 =
            updateStore s1 uid { doc with enabled := false } := by
          simp [applyOp, disable2fa, hex]
        rw [heq] at h
        by_cases hu : u = uid
        · subst hu
          rw [updateStore_lookup] at h
          obtain rfl := Option.some.inj h
          obtain ⟨sec, hsec, hne⟩ := ih u doc hex
          exact ⟨sec, hsec, hne⟩
        · rw [updateStore_lookup_ne _ _ _ _ hu] at h
          exact ih u c h

/-! ### Claim theorems -/

/-- C4: for every secret that decodes and every time, the code computed for
the current counter verifies against the same secret at that time
(round-trip self-consistency of `ComputeCode` and `Verify`). -/
theorem verify_roundtrip (secret code : String) (now : Nat)
    (h : computeCode secret (counterForTime now) = some code) :
    totpVerify secret code now = true := by
  rcases hdec : base32Decode secret with _ | key
  · rw [computeCode, hdec] at h; exact absurd h (by simp)
  · rw [computeCode, hdec] at h
    simp only [Option.map_some', Option.some.injEq] at h
    rw [totpVerify_true_iff secret key code now hdec]
    exact ⟨counterForTime now, by simp [windowCounters], h.symm⟩

/-- Witness for C4 at the RFC test secret and `now = 59` (counter 1). -/
theorem verify_roundtrip_witness : totpVerify rfcSecret "287082" 59 = true :=
  verify_roundtrip rfcSecret "287082" 59 (by rfl)

/-- C5: a verification request for a configured user whose code matches no
counter in the window answers `{success: false, verified: false}` with the
stored enabled value, and leaves the store entirely unchanged. -/
theorem verify_failure_preserves_state (store : Store) (uid code : String) (now : Nat)
    (c : Credential) (h : store uid = some c) (hcv : checkCode c code now = false) :
    verify2fa store uid code now = Except.ok (⟨false, false, c.enabled⟩, store) := by
  simp [verify2fa, h, hcv]

/-- Witness for C5: `alice` submits `000000` at `now = 59`. -/
theorem verify_failure_witness :
    verify2fa demoStore "alice" "000000" 59 = Except.ok (⟨false, false, false⟩, demoStore) :=
  verify_failure_preserves_state demoStore "alice" "000000" 59
    ⟨"alice", some rfcSecret, "Flames 2FA", "alice", false⟩ (by rfl) (by rfl)

/-- C6: for a configured user, a malformed candidate (wrong length or a
non-digit character) yields the non-match response, never an error raised to
the caller. -/
theorem verify_malformed_nonmatch (store : Store) (uid code : String) (now : Nat)
    (c : Credential) (h : store uid = some c)
    (hm : code.length ≠ 6 ∨ ∃ ch ∈ code.data, ch.isDigit = false) :
    verify2fa store uid code now = Except.ok (⟨false, false, c.enabled⟩, store) := by
  have hcv : checkCode c code now = false := by
    cases hsec : c.secret with
    | none => simp [checkCode, hsec]
    | some s => simp [checkCode, hsec, totpVerify_malformed s code now hm]
  simp [verify2fa, h, hcv]

/-- Witness for C6: `alice` submits the five-character candidate `12345`. -/
theorem verify_malformed_witness :
    verify2fa demoStore "alice" "12345" 59 = Except.ok (⟨false, false, false⟩, demoStore) :=
  verify_malformed_nonmatch demoStore "alice" "12345" 59
    ⟨"alice", some rfcSecret, "Flames 2FA", "alice", false⟩ (by rfl) (Or.inl (by decide))

/-- C7: a request for an unconfigured user is surfaced distinctly (a 404
error for verify/disable, `configured = false` for status), while a
configured user with an invalid code gets an ordinary `{success: false}`
response — never an error. -/
theorem not_configured_distinct (store : Store) (uid code : String) (now : Nat) :
    (store uid = none →
      verify2fa store uid code now = Except.error ⟨404, "2FA not set up for this user"⟩ ∧
      status2fa store uid = ⟨uid, none, none, false, false⟩ ∧
      disable2fa store uid = Except.error ⟨404, "2FA not set up for this user"⟩) ∧
    (∀ c, store uid = some c →
      (checkCode c code now = false →
        verify2fa store uid code now = Except.ok (⟨false, false, c.enabled⟩, store)) ∧
      (∀ e, verify2fa store uid code now ≠ Except.error e) ∧
      (status2fa store uid).configured = true ∧
      ∃ r s2, disable2fa store uid = Except.ok (r, s2)) := by
  constructor
  · intro h
    exact ⟨by simp [verify2fa, h], by simp [status2fa, h], by simp [disable2fa, h]⟩
  · intro c h
    refine ⟨fun hcv => by simp [verify2fa, h, hcv], ?_, by simp [status2fa, h], ?_⟩
    · intro e
      cases hcv : checkCode c code now <;> simp [verify2fa, h, hcv]
    · exact ⟨⟨true, false⟩, updateStore store uid { c with enabled := false },
        by simp [disable2fa, h]⟩

/-- Witness for C7: the unconfigured user `bob` on the empty store. -/
theorem not_configured_distinct_witness :
    verify2fa emptyStore "bob" "123456" 0 =
        Except.error ⟨404, "2FA not set up for this user"⟩ ∧
    status2fa emptyStore "bob" = ⟨"bob", none, none, false, false⟩ ∧
    disable2fa emptyStore "bob" = Except.error ⟨404, "2FA not set up for this user"⟩ :=
  (not_configured_distinct emptyStore "bob" "123456" 0).1 rfl

/-- C8: the status response is independent of the stored secret — two stores
differing only in a credential's secret produce identical status responses,
so the secret is never exposed by the status query. -/
theorem status_ignores_secret (store : Store) (uid : String) (c : Credential)
    (s1 s2 : Option String) :
    status2fa (updateStore store uid { c with secret := s1 }) uid =
      status2fa (updateStore store uid { c with secret := s2 }) uid := by
  simp [status2fa, updateStore]

/-- C10: disable is idempotent — disabling an already-disabled credential
succeeds with `{success: true, enabled: false}` and leaves the store exactly
as it was, and a second disable returns the same response and store as the
first. -/
theorem disable_idempotent (store : Store) (uid : String) (c : Credential)
    (h : store uid = some c) :
    (c.enabled = false → disable2fa store uid = Except.ok (⟨true, false⟩, store)) ∧
    (∀ r s2, disable2fa store uid = Except.ok (r, s2) →
      disable2fa s2 uid = Except.ok (r, s2)) := by
  have hd0 : disable2fa store uid =
      Except.ok ((⟨true, false⟩ : DisableResponse),
        updateStore store uid { c with enabled := false }) := by
    simp [disable2fa, h]
  constructor
  · intro hen
    have hcc : ({ c with enabled := false } : Credential) = c := by
      cases c
      subst hen
      rfl
    rw [hd0, hcc, updateStore_eq_of_lookup h]
  · intro r s2 hd
    rw [hd0] at hd
    have hpair := Except.ok.inj hd
    have hr : r = ⟨true, false⟩ := (congrArg Prod.fst hpair).symm
    have hs : s2 = updateStore store uid { c with enabled := false } :=
      (congrArg Prod.snd hpair).symm
    subst hr
    subst hs
    have hlook : updateStore store uid { c with enabled := false } uid =
        some { c with enabled := false } := updateStore_lookup _ _ _
    have hd1 : disable2fa (updateStore store uid { c with enabled := false }) uid =
        Except.ok ((⟨true, false⟩ : DisableResponse),
          updateStore (updateStore store uid { c with enabled := false }) uid
            { c with enabled := false }) := by
      simp [disable2fa, hlook]
    rw [hd1, updateStore_eq_of_lookup hlook]

/-- Witness for C10: user `u` is stored with `enabled = false`; disable
succeeds and returns the store unchanged. -/
theorem disable_idempotent_witness :
    disable2fa (updateStore emptyStore "u" ⟨"u", some rfcSecret, "I", "L", false⟩) "u" =
      Except.ok (⟨true, false⟩,
        updateStore emptyStore "u" ⟨"u", some rfcSecret, "I", "L", false⟩) :=
  (disable_idempotent (updateStore emptyStore "u" ⟨"u", some rfcSecret, "I", "L", false⟩)
    "u" ⟨"u", some rfcSecret, "I", "L", false⟩ (by rfl)).1 rfl

/-- C1 (counterexample): a credential can exist whose `secret` field is
present but empty; `setup_2fa` then generates a fresh secret and resets
`enabled`, so "a credential exists implies the existing secret and enabled
value are returned" and "a fresh secret is generated only when no credential
(or no secret field) exists" are both false at this input. -/
theorem setup_claim_fails_on_empty_secret :
    (updateStore emptyStore "u" ⟨"u", some "", "Old", "old", true⟩) "u" =
        some ⟨"u", some "", "Old", "old", true⟩ ∧
    (setup2fa (updateStore emptyStore "u" ⟨"u", some "", "Old", "old", true⟩)
        ⟨"u", "Flames 2FA", none⟩ "NEWSECRETNEWSECRETNEWSECRETNEWSE" (fun _ => "")).1.secret =
      "NEWSECRETNEWSECRETNEWSECRETNEWSE" ∧
    (setup2fa (updateStore emptyStore "u" ⟨"u", some "", "Old", "old", true⟩)
        ⟨"u", "Flames 2FA", none⟩ "NEWSECRETNEWSECRETNEWSECRETNEWSE" (fun _ => "")).1.enabled =
      false :=
  ⟨rfl, rfl, rfl⟩

/-- C1 (amended): provisioning returns the existing secret and enabled value
unchanged whenever the stored credential holds a present, nonempty secret; a
fresh secret (with `enabled = false`) is generated exactly when no credential
exists, the secret field is absent, or the stored secret is empty. -/
theorem setup_reuses_truthy_secret (store : Store) (req : SetupRequest)
    (fresh : String) (qr : String → String) :
    (∀ c s, store req.user_id = some c → c.secret = some s → s ≠ "" →
      (setup2fa store req fresh qr).1.secret = s ∧
      (setup2fa store req fresh qr).1.enabled = c.enabled) ∧
    ((store req.user_id = none ∨
        ∃ c, store req.user_id = some c ∧ (c.secret = none ∨ c.secret = some "")) →
      (setup2fa store req fresh qr).1.secret = fresh ∧
      (setup2fa store req fresh qr).1.enabled = false) := by
  constructor
  · intro c s hc hs hne
    rw [setup2fa_secret, setup2fa_enabled,
      setupChoice_truthy fresh hc (truthySecret_of c s hs hne)]
    exact ⟨rfl, rfl⟩
  · intro hcase
    have hch : setupChoice store req fresh = (fresh, false) := by
      apply setupChoice_fresh
      rcases hcase with h | ⟨c, hc, hsec⟩
      · exact Or.inl h
      · refine Or.inr ⟨c, hc, ?_⟩
        rcases hsec with h2 | h2 <;> simp [truthySecret, h2]
    rw [setup2fa_secret, setup2fa_enabled, hch]
    exact ⟨rfl, rfl⟩

/-- Witness for C1 (amended): `u` is stored with the RFC secret and
`enabled = true`; re-provisioning returns exactly these. -/
theorem setup_reuses_truthy_secret_witness :
    (setup2fa (updateStore emptyStore "u" ⟨"u", some rfcSecret, "I", "L", true⟩)
        ⟨"u", "Flames 2FA", none⟩ "NEWSECRETNEWSECRETNEWSECRETNEWSE" (fun _ => "")).1.secret =
      rfcSecret ∧
    (setup2fa (updateStore emptyStore "u" ⟨"u", some rfcSecret, "I", "L", true⟩)
        ⟨"u", "Flames 2FA", none⟩ "NEWSECRETNEWSECRETNEWSECRETNEWSE" (fun _ => "")).1.enabled =
      true :=
  (setup_reuses_truthy_secret
      (updateStore emptyStore "u" ⟨"u", some rfcSecret, "I", "L", true⟩)
      ⟨"u", "Flames 2FA", none⟩ "NEWSECRETNEWSECRETNEWSECRETNEWSE" (fun _ => "")).1
    ⟨"u", some rfcSecret, "I", "L", true⟩ rfcSecret (by rfl) rfl (by decide)

/-- C9 (counterexample): when the existing credential has no secret field,
re-provisioning does not preserve `secret` and `enabled`: here a credential
with `enabled = true` and no secret ends up with the fresh secret and
`enabled = false`, and a present-but-empty request label is replaced by the
user id rather than stored. -/
theorem setup_frame_claim_fails :
    (updateStore emptyStore "u" ⟨"u", none, "OldIss", "OldLabel", true⟩) "u" =
        some ⟨"u", none, "OldIss", "OldLabel", true⟩ ∧
    (setup2fa (updateStore emptyStore "u" ⟨"u", none, "OldIss", "OldLabel", true⟩)
        ⟨"u", "NewIss", some ""⟩ "NEWSECRETNEWSECRETNEWSECRETNEWSE" (fun _ => "")).2 "u" =
      some ⟨"u", some "NEWSECRETNEWSECRETNEWSECRETNEWSE", "NewIss", "u", false⟩ :=
  ⟨rfl, rfl⟩

/-- C9 (amended): re-provisioning a `user_id` whose credential holds a
nonempty secret overwrites exactly `issuer` and `label` (label defaulting to
the user id when absent or empty), preserves `secret` and `enabled`, and
changes no other user's document; when the existing credential lacks a
truthy secret, the fresh secret is stored with `enabled = false`. -/
theorem setup_frame (store : Store) (req : SetupRequest) (fresh : String)
    (qr : String → String) (c : Credential) (h : store req.user_id = some c) :
    (∀ s, c.secret = some s → s ≠ "" →
      (setup2fa store req fresh qr).2 req.user_id =
        some ⟨req.user_id, some s, req.issuer, resolveLabel req, c.enabled⟩) ∧
    (truthySecret c = none →
      (setup2fa store req fresh qr).2 req.user_id =
        some ⟨req.user_id, some fresh, req.issuer, resolveLabel req, false⟩) ∧
    (∀ v, v ≠ req.user_id → (setup2fa store req fresh qr).2 v = store v) := by
  refine ⟨?_, ?_, ?_⟩
  · intro s hs hne
    rw [setup2fa_snd, updateStore_lookup,
      setupChoice_truthy fresh h (truthySecret_of c s hs hne)]
  · intro ht
    rw [setup2fa_snd, updateStore_lookup, setupChoice_fresh fresh (Or.inr ⟨c, h, ht⟩)]
  · intro v hv
    rw [setup2fa_snd, updateStore_lookup_ne _ _ _ _ hv]

/-- Witness for C9 (amended): `u` holds the RFC secret with `enabled = true`;
re-provisioning with a new issuer and label stores exactly the new display
fields and the old secret and flag. -/
theorem setup_frame_witness :
    (setup2fa (updateStore emptyStore "u" ⟨"u", some rfcSecret, "OldIss", "OldLabel", true⟩)
        ⟨"u", "NewIss", some "lbl"⟩ "NEWSECRETNEWSECRETNEWSECRETNEWSE" (fun _ => "")).2 "u" =
      some ⟨"u", some rfcSecret, "NewIss", "lbl", true⟩ :=
  (setup_frame (updateStore emptyStore "u" ⟨"u", some rfcSecret, "OldIss", "OldLabel", true⟩)
      ⟨"u", "NewIss", some "lbl"⟩ "NEWSECRETNEWSECRETNEWSECRETNEWSE" (fun _ => "")
      ⟨"u", some rfcSecret, "OldIss", "OldLabel", true⟩ (by rfl)).1
    rfcSecret rfl (by decide)

/-- C3 (counterexample): six-digit codes can collide, so a code computed for
a counter at distance `window + 1` can still verify.  At `now = 3102750` the
current counter is 103425; the code for counter 103427 (distance 2) is
`746629`, which collides with the code for counter 103424 and therefore
verifies. -/
theorem verify_window_claim_fails :
    computeCode rfcSecret (counterForTime 3102750 + 2) = some "746629" ∧
    totpVerify rfcSecret "746629" 3102750 = true :=
  ⟨rfl, rfl⟩

/-- C3 (amended): with `window = 1` verification accepts exactly the codes
computed for the counters `CounterForTime(now) - 1 .. CounterForTime(now) + 1`
— in particular codes at distance 1 verify, and a code at distance 2 verifies
only in the collision case, i.e. only when it textually equals one of the
three in-window codes. -/
theorem verify_window_characterization (secret : String) (key : List Nat)
    (candidate : String) (now : Nat) (h : base32Decode secret = some key) :
    (totpVerify secret candidate now = true ↔
      ∃ k ∈ windowCounters (counterForTime now), candidate = computeCodeKey key k) ∧
    totpVerify secret (computeCodeKey key (counterForTime now - 1)) now = true ∧
    totpVerify secret (computeCodeKey key (counterForTime now + 1)) now = true := by
  refine ⟨totpVerify_true_iff secret key candidate now h, ?_, ?_⟩
  · rw [totpVerify_true_iff secret key _ now h]
    exact ⟨counterForTime now - 1, by simp [windowCounters], rfl⟩
  · rw [totpVerify_true_iff secret key _ now h]
    exact ⟨counterForTime now + 1, by simp [windowCounters], rfl⟩

/-- Witness for C3 (amended) at the RFC secret and `now = 59`. -/
theorem verify_window_witness :
    (totpVerify rfcSecret "359152" 59 = true ↔
      ∃ k ∈ windowCounters (counterForTime 59), "359152" = computeCodeKey rfcKey k) ∧
    totpVerify rfcSecret (computeCodeKey rfcKey (counterForTime 59 - 1)) 59 = true ∧
    totpVerify rfcSecret (computeCodeKey rfcKey (counterForTime 59 + 1)) 59 = true :=
  verify_window_characterization rfcSecret rfcKey "359152" 59 (by rfl)

/-- C2: on every reachable store, `enabled` flips `false → true` only through
a verify request whose response is `{success: true, verified: true}`, and
`true → false` only through an explicit disable of that user. -/
theorem enabled_transition_paths (s : Store) (op : Op) (u : String) (c c2 : Credential)
    (hreach : Reach s) (hok : opFreshOk op)
    (hc : s u = some c) (hc2 : applyOp op s u = some c2) :
    (c.enabled = false → c2.enabled = true →
      ∃ code now r s3, op = Op.verify u code now ∧
        verify2fa s u code now = Except.ok (r, s3) ∧
        r.success = true ∧ r.verified = true) ∧
    (c.enabled = true → c2.enabled = false → op = Op.disable u) := by
  cases op with
  | setup req fresh =>
    rw [show applyOp (Op.setup req fresh) s = (setup2fa s req fresh (fun _ => "")).2
        from rfl, setup2fa_snd] at hc2
    by_cases hu : u = req.user_id
    · subst hu
      rw [updateStore_lookup] at hc2
      obtain rfl := Option.some.inj hc2
      obtain ⟨sec, hsec, hne⟩ := reach_secret_nonempty hreach req.user_id c hc
      have hen : (⟨req.user_id, some (setupChoice s req fresh).1, req.issuer,
          resolveLabel req, (setupChoice s req fresh).2⟩ : Credential).enabled =
          c.enabled := by
        rw [setupChoice_truthy fresh hc (truthySecret_of c sec hsec hne)]
      constructor
      · intro h1 h2; rw [hen, h1] at h2; exact absurd h2 (by decide)
      · intro h1 h2; rw [hen, h1] at h2; exact absurd h2 (by decide)
    · rw [updateStore_lookup_ne _ _ _ _ hu, hc] at hc2
      obtain rfl := Option.some.inj hc2
      constructor <;> (intro h1 h2; rw [h1] at h2; exact absurd h2 (by decide))
  | verify uid code now =>
    rcases hex : s uid with _ | doc
    · have heq : applyOp (Op.verify uid code now) s = s := by
        simp [applyOp, verify2fa, hex]
      rw [heq, hc] at hc2
      obtain rfl := Option.some.inj hc2
      constructor <;> (intro h1 h2; rw [h1] at h2; exact absurd h2 (by decide))
    · cases hcv : checkCode doc code now with
      | false =>
        have heq : applyOp (Op.verify uid code now) s = s := by
          simp [applyOp, verify2fa, hex, hcv]
        rw [heq, hc] at hc2
        obtain rfl := Option.some.inj hc2
        constructor <;> (intro h1 h2; rw [h1] at h2; exact absurd h2 (by decide))
      | true =>
        have heq : applyOp (Op.verify uid code now) s =
            updateStore s uid { doc with enabled := true } := by
          simp [applyOp, verify2fa, hex, hcv]
        rw [heq] at hc2
        by_cases hu : u = uid
        · subst hu
          rw [updateStore_lookup] at hc2
          obtain rfl := Option.some.inj hc2
          constructor
          · intro h1 h2
            exact ⟨code, now, ⟨true, true, true⟩, updateStore s u { doc with enabled := true },
              rfl, by simp [verify2fa, hex, hcv], rfl, rfl⟩
          · intro h1 h2
            exact Bool.noConfusion h2
        · rw [updateStore_lookup_ne _ _ _ _ hu, hc] at hc2
          obtain rfl := Option.some.inj hc2
          constructor <;> (intro h1 h2; rw [h1] at h2; exact absurd h2 (by decide))
  | status uid =>
    rw [show applyOp (Op.status uid) s = s from rfl, hc] at hc2
    obtain rfl := Option.some.inj hc2
    constructor <;> (intro h1 h2; rw [h1] at h2; exact absurd h2 (by decide))
  | disable uid =>
    rcases hex : s uid with _ | doc
    · have heq : applyOp (Op.disable uid) s = s := by
        simp [applyOp, disable2fa, hex]
      rw [heq, hc] at hc2
      obtain rfl := Option.some.inj hc2
      constructor <;> (intro h1 h2; rw [h1] at h2; exact absurd h2 (by decide))
    · have heq : applyOp (Op.disable uid) s =
          updateStore s uid { doc with enabled := false } := by
        simp [applyOp, disable2fa, hex]
      rw [heq] at hc2
      by_cases hu : u = uid
      · subst hu
        rw [updateStore_lookup] at hc2
        obtain rfl := Option.some.inj hc2
        constructor
        · intro h1 h2; exact Bool.noConfusion h2
        · intro h1 h2; rfl
      · rw [updateStore_lookup_ne _ _ _ _ hu, hc] at hc2
        obtain rfl := Option.some.inj hc2
        constructor <;> (intro h1 h2; rw [h1] at h2; exact absurd h2 (by decide))

/-- Witness for C2: after `alice` provisioned (with the RFC secret as fresh
secret) and verified at `now = 59`, her flag is `true`; disabling flips it to
`false`, and the theorem instantiates at that transition. -/
theorem enabled_transition_witness :
    ((⟨"alice", some rfcSecret, "Flames 2FA", "alice", true⟩ : Credential).enabled = false →
      (⟨"alice", some rfcSecret, "Flames 2FA", "alice", false⟩ : Credential).enabled = true →
      ∃ code now r s3, Op.disable "alice" = Op.verify "alice" code now ∧
        verify2fa demoStoreOn "alice" code now = Except.ok (r, s3) ∧
        r.success = true ∧ r.verified = true) ∧
    ((⟨"alice", some rfcSecret, "Flames 2FA", "alice", true⟩ : Credential).enabled = true →
      (⟨"alice", some rfcSecret, "Flames 2FA", "alice", false⟩ : Credential).enabled = false →
      Op.disable "alice" = Op.disable "alice") :=
  enabled_transition_paths demoStoreOn (Op.disable "alice") "alice"
    ⟨"alice", some rfcSecret, "Flames 2FA", "alice", true⟩
    ⟨"alice", some rfcSecret, "Flames 2FA", "alice", false⟩
    (Reach.step (Op.verify "alice" "287082" 59) demoStore
      (Reach.step (Op.setup demoReq rfcSecret) emptyStore Reach.base rfl) True.intro)
    True.intro (by rfl) (by rfl)

end TwoFA
